import Mathlib

/-!
# Shallow embedding of the alert/session subsystem of `app.py`

The smart-surveillance repository keeps an in-memory alert ledger, a
background camera-detection loop, and a small HTTP control surface
(`start_camera`, `stop_camera`, `download_alerts`).  This file embeds the
state and the operations of `src/app.py` as pure Lean functions:

* module-level globals (`alerts_log`, `_next_alert_id`, `camera_running`,
  `frame`, `video_writer`, `session_folder`, `all_sessions`) become fields
  of an `AppState` record that is threaded explicitly;
* the external collaborators (camera, YOLO model, geocoder, heuristic
  colour detector) are parameters of an `Env` record: the camera is a
  finite list of frames followed by end-of-stream, the model is a
  function from a frame to detections plus an optional rendered image,
  the geocoder is a `GeoOutcome`;
* file writes performed by `save_alerts_csv` are recorded in a
  `saved_csvs` field holding the rows of each written file;
* fractional confidences are rationals (the decision `conf < CONF_THRESH`
  in the source is a plain numeric comparison);
* timestamp strings are supplied by the environment (`Env.now`); the
  decimal formatting of coordinates/confidence inside messages is
  abstracted to `toString`, which no theorem below depends on.

Frames are opaque tokens (`Frame := Nat`); in-place drawing on a frame
(rectangles, GPS text) does not change the token, and the annotated frame
published to the preview buffer is `r.plot()` when it succeeds, otherwise
the raw frame, exactly as in the source.  The state additionally carries a
`produced` history of every frame the loop has published to the preview
buffer; the loop appends to it at the single point where the source
assigns the global `frame`, so it is a pure observation history.
-/

abbrev Frame := Nat

/-- One entry of `alerts_log`: the dict built by `add_alert` with keys
`id`, `time`, `msg`, `type`. -/
structure AlertEvent where
  id : Nat
  time : String
  msg : String
  type : String
deriving Repr, DecidableEq

/-- One detection returned by the YOLO model: a class id and a confidence
score (`boxes.cls` / `boxes.conf`). -/
structure Detection where
  cls_id : Nat
  conf : Rat
deriving Repr, DecidableEq

/-- Behaviour of one `geocoder.ip('me')` call: it may raise, or return an
object with an `ok` flag and a lat/lng pair. -/
inductive GeoOutcome where
  | raises
  | result (ok : Bool) (latlng : Rat × Rat)
deriving Repr, DecidableEq

/-- The module-level mutable globals of `app.py`, threaded explicitly. -/
structure AppState where
  alerts_log : List AlertEvent
  next_alert_id : Nat
  camera_running : Bool
  /-- the global `frame` (live preview buffer), `none` before first capture -/
  frame : Option Frame
  /-- observation history: every frame ever assigned to the preview buffer -/
  produced : List Frame
  /-- whether `video_writer` currently holds an open writer -/
  video_writer_open : Bool
  /-- frames written to the current session's video sink -/
  written_frames : List Frame
  session_folder : Option String
  all_sessions : List String
  /-- rows of every CSV file written by `save_alerts_csv`, in write order -/
  saved_csvs : List (List (List String))
deriving Repr, DecidableEq

/-- State at process start, before any request is handled. -/
def init_state : AppState :=
  { alerts_log := []
    next_alert_id := 1
    camera_running := false
    frame := none
    produced := []
    video_writer_open := false
    written_frames := []
    session_folder := none
    all_sessions := []
    saved_csvs := [] }

/-- `ALERT_CLASSES` from `app.py` (a set; order is irrelevant). -/
def ALERT_CLASSES : List String :=
  ["knife", "gun", "pistol", "rifle", "firearm", "fire", "flame", "smoke"]

/-- `CONF_THRESH = 0.35`. -/
def CONF_THRESH : Rat := 0.35

/-- `add_alert(msg, alert_type)`: assigns `_next_alert_id`, stamps the
current time, appends to `alerts_log`, increments the counter, and returns
the created alert.  The wall-clock string is a parameter. -/
def add_alert (now msg alert_type : String) (st : AppState) :
    AlertEvent × AppState :=
  let alert : AlertEvent :=
    { id := st.next_alert_id, time := now, msg := msg, type := alert_type }
  (alert,
    { st with
      alerts_log := st.alerts_log ++ [alert]
      next_alert_id := st.next_alert_id + 1 })

/-- `get_gps_location()`: returns `g.latlng` when the geocoder call
succeeds with `g.ok`, and the sentinel `[0.0, 0.0]` when the call raises
or `g.ok` is false. -/
def get_gps_location : GeoOutcome → Rat × Rat
  | .raises => (0, 0)
  | .result ok latlng => if ok then latlng else (0, 0)

/-- Python `p in s` on strings: `p` occurs contiguously in `s`.  Helper on
character lists: `p` is a prefix of `s`. -/
def charsPrefix : List Char → List Char → Bool
  | [], _ => true
  | _ :: _, [] => false
  | a :: p, b :: s => a == b && charsPrefix p s

/-- `p` occurs contiguously somewhere in `s` (character lists). -/
def charsContain (s p : List Char) : Bool :=
  match s with
  | [] => p.isEmpty
  | _ :: t => charsPrefix p s || charsContain t p

/-- Python `pat in s` for strings. -/
def strContains (s pat : String) : Bool :=
  charsContain s.data pat.data

/-- Header row of the alert CSV: `alerts_log[0].keys()` in insertion
order of the dict built by `add_alert`. -/
def csvHeader : List String := ["id", "time", "msg", "type"]

/-- One CSV data row for an alert (values of the alert dict). -/
def csvRow (a : AlertEvent) : List String :=
  [toString a.id, a.time, a.msg, a.type]

/-- All rows of the CSV serialization of a non-empty ledger. -/
def csvRows (log : List AlertEvent) : List (List String) :=
  csvHeader :: log.map csvRow

/-- `save_alerts_csv()`: returns immediately (no file write) when
`alerts_log` is empty; otherwise writes one file holding a header row and
one row per alert, recorded as a new entry of `saved_csvs`. -/
def save_alerts_csv (st : AppState) : AppState :=
  if st.alerts_log.isEmpty then st
  else { st with saved_csvs := st.saved_csvs ++ [csvRows st.alerts_log] }

/-- `/download_alerts`: 404 when the ledger is empty, otherwise the CSV
content (header plus one row per alert). -/
def download_alerts (st : AppState) : Except Nat (List (List String)) :=
  if st.alerts_log.isEmpty then .error 404
  else .ok (csvRows st.alerts_log)

/-- `/alerts`: the ledger snapshot, in insertion order. -/
def get_alerts (st : AppState) : List AlertEvent :=
  st.alerts_log

/-- The external collaborators of `camera_detection`, fixed for one run:
camera, YOLO model, its `names` table, `r.plot()`, the heuristic colour
detector, the geocoder, and the wall clock. -/
structure Env where
  /-- `cap.isOpened()` after `cv2.VideoCapture(0, ...)` -/
  capOpened : Bool
  /-- the frames `cap.read()` yields before it first fails -/
  frames : List Frame
  /-- `model.names` lookup: class id to label, `none` when absent -/
  names : Nat → Option String
  /-- detections of `results[0].boxes` for a frame (empty when `boxes` is
  `None` or has length 0) -/
  detect : Frame → List Detection
  /-- `r.plot()` for a frame: the rendered image, or `none` when it raises -/
  plotted : Frame → Option Frame
  /-- `detect_small_fire(f)`: whether the HSV heuristic flags a region -/
  smallFire : Frame → Bool
  /-- behaviour of each `geocoder.ip('me')` call during this run -/
  geo : GeoOutcome
  /-- wall-clock timestamp string for this run -/
  now : String

/-- Python `str.lower()`: every character mapped to its lower-case form
(the class labels involved are ASCII). -/
def strLower (s : String) : String :=
  ⟨s.data.map Char.toLower⟩

/-- The label the loop compares against `ALERT_CLASSES`:
`str(names.get(cls_id, cls_id)).lower()`. -/
def detection_label (names : Nat → Option String) (d : Detection) : String :=
  strLower ((names d.cls_id).getD (toString d.cls_id))

/-- The shared GPS tail of both alert branches: fetch the location, and
when it differs from the sentinel `[0.0, 0.0]` draw the coordinate box on
the frame and record an `info` alert carrying it.  The boolean reports
whether the coordinate annotation was drawn. -/
def gps_side_effect (now : String) (gps : Rat × Rat) (st : AppState) :
    Bool × AppState :=
  if gps ≠ ((0 : Rat), (0 : Rat)) then
    (true,
      (add_alert now
        (s!"GPS Location: {gps.1}, {gps.2}") "info" st).2)
  else (false, st)

/-- The body of the `for cls_id, conf in zip(cls_ids, confs)` loop: skip
when `conf < CONF_THRESH`; otherwise, when the lowercased label is in
`ALERT_CLASSES`, record a `fire`/`weapon` alert (fire when the label
contains `"fire"` or `"flame"`), spawn the beep (no observable state), and
run the GPS side effect. -/
def process_detection (env : Env) (d : Detection) (st : AppState) :
    AppState :=
  if d.conf < CONF_THRESH then st
  else
    let name := detection_label env.names d
    if name ∈ ALERT_CLASSES then
      let alert_type :=
        if strContains name "fire" || strContains name "flame" then "fire"
        else "weapon"
      let st := (add_alert env.now (s!"{name} detected (conf {d.conf})")
        alert_type st).2
      (gps_side_effect env.now (get_gps_location env.geo) st).2
    else st

/-- One iteration body of the `while camera_running` loop after a
successful `cap.read()`: run the model over the frame, process each
detection, run the colour heuristic (recording a `fire` alert and the GPS
side effect when it flags), publish the annotated frame (`r.plot()` when
it succeeds, otherwise the raw frame) to the preview buffer, and append it
to the video sink when a writer is held. -/
def process_frame (env : Env) (f : Frame) (st : AppState) : AppState :=
  let st := (env.detect f).foldl (fun st d => process_detection env d st) st
  let st :=
    if env.smallFire f then
      let st :=
        (add_alert env.now "Small flame/matchstick detected" "fire" st).2
      (gps_side_effect env.now (get_gps_location env.geo) st).2
    else st
  let annotated := (env.plotted f).getD f
  let st := { st with
    frame := some annotated
    produced := st.produced ++ [annotated] }
  if st.video_writer_open then
    { st with written_frames := st.written_frames ++ [annotated] }
  else st

/-- The `while camera_running` loop: each iteration first checks the flag,
then reads a frame; a failed read records the `"Frame read failed"` info
alert and breaks. -/
def camera_loop (env : Env) : List Frame → AppState → AppState
  | [], st =>
    if st.camera_running then
      (add_alert env.now "Frame read failed" "info" st).2
    else st
  | f :: rest, st =>
    if st.camera_running then camera_loop env rest (process_frame env f st)
    else st

/-- `camera_detection()`: if the capture device does not open, record one
info alert, clear `camera_running`, and return without touching the
session state.  Otherwise create the session folder, register it, open the
video writer, run the frame loop, then release the capture and writer,
clear `camera_running`, and save the alert CSV. -/
def camera_detection (env : Env) (st : AppState) : AppState :=
  if !env.capOpened then
    let st := (add_alert env.now "Camera failed to open" "info" st).2
    { st with camera_running := false }
  else
    let folder := "sessions/" ++ env.now
    let st := { st with
      session_folder := some folder
      all_sessions := st.all_sessions ++ [folder]
      video_writer_open := true
      written_frames := [] }
    let st := camera_loop env env.frames st
    let st := { st with video_writer_open := false, camera_running := false }
    save_alerts_csv st

/-- `/start_camera`: when the loop is already running, answer
`"Camera already running"` and spawn nothing; otherwise set the flag,
spawn the detection thread, and answer `"Camera started"`.  The middle
component reports whether a background task was spawned. -/
def start_camera (st : AppState) : String × Bool × AppState :=
  if st.camera_running then ("Camera already running", false, st)
  else ("Camera started", true, { st with camera_running := true })

/-- `/stop_camera`: when the loop is not running, answer
`"Camera not running"` and change nothing; otherwise clear the flag. -/
def stop_camera (st : AppState) : String × AppState :=
  if !st.camera_running then ("Camera not running", st)
  else ("Camera stopping", { st with camera_running := false })

/-- The externally triggerable state-changing operations over the process
lifetime.  A `start` runs the spawned `camera_detection` thread to
completion (the sequential linearization of the run). -/
inductive Op where
  | add (now msg ty : String)
  | start (env : Env)
  | stop

/-- Execute one operation. -/
def runOp (op : Op) (st : AppState) : AppState :=
  match op with
  | .add now msg ty => (add_alert now msg ty st).2
  | .start env =>
    let r := start_camera st
    if r.2.1 then camera_detection env r.2.2 else r.2.2
  | .stop => (stop_camera st).2

/-- Execute a sequence of operations from the left. -/
def runOps (ops : List Op) (st : AppState) : AppState :=
  ops.foldl (fun st op => runOp op st) st

/-! ## Basic facts about `add_alert`

`add_alert` changes only the ledger and the counter; every other field is
untouched.  These unfold by `rfl`. -/

@[simp] theorem add_alert_log (now msg ty : String) (st : AppState) :
    (add_alert now msg ty st).2.alerts_log =
      st.alerts_log ++ [⟨st.next_alert_id, now, msg, ty⟩] := rfl

@[simp] theorem add_alert_next_id (now msg ty : String) (st : AppState) :
    (add_alert now msg ty st).2.next_alert_id = st.next_alert_id + 1 := rfl

@[simp] theorem add_alert_camera_running (now msg ty : String)
    (st : AppState) :
    (add_alert now msg ty st).2.camera_running = st.camera_running := rfl

@[simp] theorem add_alert_frame (now msg ty : String) (st : AppState) :
    (add_alert now msg ty st).2.frame = st.frame := rfl

@[simp] theorem add_alert_produced (now msg ty : String) (st : AppState) :
    (add_alert now msg ty st).2.produced = st.produced := rfl

@[simp] theorem add_alert_writer (now msg ty : String) (st : AppState) :
    (add_alert now msg ty st).2.video_writer_open =
      st.video_writer_open := rfl

@[simp] theorem add_alert_written (now msg ty : String) (st : AppState) :
    (add_alert now msg ty st).2.written_frames = st.written_frames := rfl

@[simp] theorem add_alert_folder (now msg ty : String) (st : AppState) :
    (add_alert now msg ty st).2.session_folder = st.session_folder := rfl

@[simp] theorem add_alert_sessions (now msg ty : String) (st : AppState) :
    (add_alert now msg ty st).2.all_sessions = st.all_sessions := rfl

@[simp] theorem add_alert_saved (now msg ty : String) (st : AppState) :
    (add_alert now msg ty st).2.saved_csvs = st.saved_csvs := rfl

@[simp] theorem add_alert_fst (now msg ty : String) (st : AppState) :
    (add_alert now msg ty st).1 = ⟨st.next_alert_id, now, msg, ty⟩ := rfl

/-! ## Let-free normal forms of the loop functions -/

/-- `gps_side_effect` as a plain conditional on the state component. -/
theorem gps_side_effect_state (now : String) (gps : Rat × Rat)
    (st : AppState) :
    (gps_side_effect now gps st).2 =
      if gps ≠ ((0 : Rat), (0 : Rat)) then
        (add_alert now (s!"GPS Location: {gps.1}, {gps.2}") "info" st).2
      else st := by
  unfold gps_side_effect
  split <;> rfl

/-- `process_detection` with its `let`s expanded. -/
theorem process_detection_eq (env : Env) (d : Detection) (st : AppState) :
    process_detection env d st =
      if d.conf < CONF_THRESH then st
      else
        if detection_label env.names d ∈ ALERT_CLASSES then
          (gps_side_effect env.now (get_gps_location env.geo)
            (add_alert env.now
              (s!"{detection_label env.names d} detected (conf {d.conf})")
              (if strContains (detection_label env.names d) "fire" ||
                  strContains (detection_label env.names d) "flame"
               then "fire" else "weapon")
              st).2).2
        else st := by
  unfold process_detection
  dsimp only

/-- The detection-fold plus heuristic-branch phase of one loop iteration
(the part before the frame is published); used to factor proofs. -/
def frame_alert_phase (env : Env) (f : Frame) (st : AppState) : AppState :=
  let st := (env.detect f).foldl (fun st d => process_detection env d st) st
  if env.smallFire f then
    (gps_side_effect env.now (get_gps_location env.geo)
      (add_alert env.now "Small flame/matchstick detected" "fire" st).2).2
  else st

theorem process_frame_alerts_log (env : Env) (f : Frame) (st : AppState) :
    (process_frame env f st).alerts_log =
      (frame_alert_phase env f st).alerts_log := by
  unfold process_frame frame_alert_phase
  dsimp only
  split <;> split <;> rfl

theorem process_frame_next_id (env : Env) (f : Frame) (st : AppState) :
    (process_frame env f st).next_alert_id =
      (frame_alert_phase env f st).next_alert_id := by
  unfold process_frame frame_alert_phase
  dsimp only
  split <;> split <;> rfl

theorem process_frame_frame (env : Env) (f : Frame) (st : AppState) :
    (process_frame env f st).frame = some ((env.plotted f).getD f) := by
  unfold process_frame
  dsimp only
  split <;> split <;> rfl

theorem process_frame_produced (env : Env) (f : Frame) (st : AppState) :
    (process_frame env f st).produced =
      (frame_alert_phase env f st).produced ++ [(env.plotted f).getD f] := by
  unfold process_frame frame_alert_phase
  dsimp only
  split <;> split <;> rfl

theorem process_frame_camera_flag (env : Env) (f : Frame) (st : AppState) :
    (process_frame env f st).camera_running =
      (frame_alert_phase env f st).camera_running := by
  unfold process_frame frame_alert_phase
  dsimp only
  split <;> split <;> rfl

/-! ## Generic preservation through a fold -/

theorem foldl_preserves {α β : Type} (proj : AppState → β)
    (g : AppState → α → AppState)
    (hg : ∀ st a, proj (g st a) = proj st) :
    ∀ (l : List α) (st : AppState), proj (l.foldl g st) = proj st
  | [], _ => rfl
  | a :: l, st => by
    rw [List.foldl_cons, foldl_preserves proj g hg l (g st a), hg]

/-! ## The ledger invariant: IDs are exactly `1, 2, ..., n`

`ledger_inv` says the log's IDs are the consecutive range starting at 1
and the counter sits one past the end.  It holds initially and is
preserved by every operation, because `add_alert` is the only writer. -/

def ledger_inv (st : AppState) : Prop :=
  st.alerts_log.map AlertEvent.id = List.range' 1 st.alerts_log.length ∧
  st.next_alert_id = st.alerts_log.length + 1

theorem ledger_inv_init : ledger_inv init_state := by
  constructor <;> rfl

/-- Transport `ledger_inv` along equal ledger and counter. -/
theorem ledger_inv_of_eq {st st' : AppState}
    (hlog : st'.alerts_log = st.alerts_log)
    (hid : st'.next_alert_id = st.next_alert_id)
    (h : ledger_inv st) : ledger_inv st' := by
  unfold ledger_inv
  rw [hlog, hid]
  exact h

theorem ledger_inv_add (now msg ty : String) {st : AppState}
    (h : ledger_inv st) : ledger_inv (add_alert now msg ty st).2 := by
  obtain ⟨h1, h2⟩ := h
  constructor
  · rw [add_alert_log, List.map_append, List.length_append, h1, h2]
    simp [List.range'_concat]
    omega
  · rw [add_alert_next_id, add_alert_log, List.length_append, h2]
    simp

theorem ledger_inv_gps (now : String) (gps : Rat × Rat) {st : AppState}
    (h : ledger_inv st) : ledger_inv (gps_side_effect now gps st).2 := by
  rw [gps_side_effect_state]
  split
  · exact ledger_inv_add _ _ _ h
  · exact h

theorem ledger_inv_process_detection (env : Env) (d : Detection)
    {st : AppState} (h : ledger_inv st) :
    ledger_inv (process_detection env d st) := by
  rw [process_detection_eq]
  split
  · exact h
  · split
    · exact ledger_inv_gps _ _ (ledger_inv_add _ _ _ h)
    · exact h

theorem ledger_inv_foldl {α : Type} (g : AppState → α → AppState)
    (hg : ∀ st a, ledger_inv st → ledger_inv (g st a)) :
    ∀ (l : List α) (st : AppState), ledger_inv st →
      ledger_inv (l.foldl g st)
  | [], _, h => h
  | a :: l, st, h => ledger_inv_foldl g hg l (g st a) (hg st a h)

theorem ledger_inv_phase (env : Env) (f : Frame) {st : AppState}
    (h : ledger_inv st) : ledger_inv (frame_alert_phase env f st) := by
  unfold frame_alert_phase
  dsimp only
  have h1 := ledger_inv_foldl _
    (fun st d hd => ledger_inv_process_detection env d hd) (env.detect f) st h
  split
  · exact ledger_inv_gps _ _ (ledger_inv_add _ _ _ h1)
  · exact h1

theorem ledger_inv_process_frame (env : Env) (f : Frame) {st : AppState}
    (h : ledger_inv st) : ledger_inv (process_frame env f st) :=
  ledger_inv_of_eq (process_frame_alerts_log env f st)
    (process_frame_next_id env f st) (ledger_inv_phase env f h)

theorem ledger_inv_camera_loop (env : Env) :
    ∀ (frames : List Frame) {st : AppState}, ledger_inv st →
      ledger_inv (camera_loop env frames st)
  | [], st, h => by
    unfold camera_loop
    split
    · exact ledger_inv_add _ _ _ h
    · exact h
  | f :: rest, st, h => by
    unfold camera_loop
    split
    · exact ledger_inv_camera_loop env rest (ledger_inv_process_frame env f h)
    · exact h

theorem ledger_inv_save {st : AppState} (h : ledger_inv st) :
    ledger_inv (save_alerts_csv st) := by
  unfold save_alerts_csv
  split
  · exact h
  · exact ledger_inv_of_eq rfl rfl h

theorem ledger_inv_camera_detection (env : Env) {st : AppState}
    (h : ledger_inv st) : ledger_inv (camera_detection env st) := by
  unfold camera_detection
  dsimp only
  split
  · exact ledger_inv_of_eq rfl rfl (ledger_inv_add _ _ _ h)
  · refine ledger_inv_save (ledger_inv_of_eq rfl rfl ?_)
    exact ledger_inv_camera_loop env env.frames (ledger_inv_of_eq rfl rfl h)

/-- `runOp (.start env)` in `if`-normal form. -/
theorem runOp_start (env : Env) (st : AppState) :
    runOp (.start env) st =
      if st.camera_running then st
      else camera_detection env { st with camera_running := true } := by
  show (let r := start_camera st;
    if r.2.1 then camera_detection env r.2.2 else r.2.2) = _
  unfold start_camera
  by_cases h : st.camera_running <;> simp [h]

/-- `runOp .stop` in normal form: the flag is cleared either way. -/
theorem runOp_stop (st : AppState) :
    runOp .stop st = { st with camera_running := false } := by
  show (stop_camera st).2 = _
  unfold stop_camera
  by_cases h : st.camera_running <;> cases st <;> simp_all

theorem ledger_inv_runOp (op : Op) {st : AppState} (h : ledger_inv st) :
    ledger_inv (runOp op st) := by
  cases op with
  | add now msg ty => exact ledger_inv_add _ _ _ h
  | start env =>
    rw [runOp_start]
    split
    · exact h
    · exact ledger_inv_camera_detection env (ledger_inv_of_eq rfl rfl h)
  | stop =>
    rw [runOp_stop]
    exact ledger_inv_of_eq rfl rfl h

theorem ledger_inv_runOps :
    ∀ (ops : List Op) {st : AppState}, ledger_inv st →
      ledger_inv (runOps ops st)
  | [], _, h => h
  | op :: ops, _, h => ledger_inv_runOps ops (ledger_inv_runOp op h)

/-! ## The ledger is append-only

No operation ever removes or reorders existing events: the old log is a
prefix of the new one. -/

theorem log_prefix_add (now msg ty : String) (st : AppState) :
    st.alerts_log <+: (add_alert now msg ty st).2.alerts_log := by
  rw [add_alert_log]
  exact List.prefix_append _ _

theorem log_prefix_gps (now : String) (gps : Rat × Rat) (st : AppState) :
    st.alerts_log <+: (gps_side_effect now gps st).2.alerts_log := by
  rw [gps_side_effect_state]
  split
  · exact log_prefix_add _ _ _ _
  · exact List.prefix_refl _

theorem log_prefix_process_detection (env : Env) (d : Detection)
    (st : AppState) :
    st.alerts_log <+: (process_detection env d st).alerts_log := by
  rw [process_detection_eq]
  split
  · exact List.prefix_refl _
  · split
    · exact (log_prefix_add _ _ _ _).trans (log_prefix_gps _ _ _)
    · exact List.prefix_refl _

theorem log_prefix_foldl {α : Type} (g : AppState → α → AppState)
    (hg : ∀ st a, st.alerts_log <+: (g st a).alerts_log) :
    ∀ (l : List α) (st : AppState),
      st.alerts_log <+: (l.foldl g st).alerts_log
  | [], _ => List.prefix_refl _
  | a :: l, st => (hg st a).trans (log_prefix_foldl g hg l (g st a))

theorem log_prefix_phase (env : Env) (f : Frame) (st : AppState) :
    st.alerts_log <+: (frame_alert_phase env f st).alerts_log := by
  unfold frame_alert_phase
  dsimp only
  have h1 := log_prefix_foldl _
    (fun st d => log_prefix_process_detection env d st) (env.detect f) st
  split
  · exact h1.trans ((log_prefix_add _ _ _ _).trans (log_prefix_gps _ _ _))
  · exact h1

theorem log_prefix_process_frame (env : Env) (f : Frame) (st : AppState) :
    st.alerts_log <+: (process_frame env f st).alerts_log := by
  rw [process_frame_alerts_log]
  exact log_prefix_phase env f st

theorem log_prefix_camera_loop (env : Env) :
    ∀ (frames : List Frame) (st : AppState),
      st.alerts_log <+: (camera_loop env frames st).alerts_log
  | [], st => by
    unfold camera_loop
    split
    · exact log_prefix_add _ _ _ _
    · exact List.prefix_refl _
  | f :: rest, st => by
    unfold camera_loop
    split
    · exact (log_prefix_process_frame env f st).trans
        (log_prefix_camera_loop env rest _)
    · exact List.prefix_refl _

@[simp] theorem save_alerts_log (st : AppState) :
    (save_alerts_csv st).alerts_log = st.alerts_log := by
  unfold save_alerts_csv
  split <;> rfl

theorem log_prefix_camera_detection (env : Env) (st : AppState) :
    st.alerts_log <+: (camera_detection env st).alerts_log := by
  unfold camera_detection
  dsimp only
  split
  · exact log_prefix_add _ _ _ _
  · rw [save_alerts_log]
    dsimp only
    exact log_prefix_camera_loop env env.frames
      { st with
        session_folder := some ("sessions/" ++ env.now)
        all_sessions := st.all_sessions ++ ["sessions/" ++ env.now]
        video_writer_open := true
        written_frames := [] }

theorem log_prefix_runOp (op : Op) (st : AppState) :
    st.alerts_log <+: (runOp op st).alerts_log := by
  cases op with
  | add now msg ty => exact log_prefix_add _ _ _ _
  | start env =>
    rw [runOp_start]
    split
    · exact List.prefix_refl _
    · exact log_prefix_camera_detection env
        { st with camera_running := true }
  | stop =>
    rw [runOp_stop]

/-! ## The preview buffer holds the last published frame

`buffer_inv` relates the buffer to the publication history: the buffer is
exactly the last entry of `produced` (and `none` when nothing was ever
published).  `process_frame` is the only writer of either field. -/

def buffer_inv (st : AppState) : Prop :=
  st.frame = st.produced.getLast?

theorem buffer_inv_init : buffer_inv init_state := rfl

theorem buffer_inv_of_eq {st st' : AppState}
    (hf : st'.frame = st.frame) (hp : st'.produced = st.produced)
    (h : buffer_inv st) : buffer_inv st' := by
  unfold buffer_inv
  rw [hf, hp]
  exact h

theorem gps_frame (now : String) (gps : Rat × Rat) (st : AppState) :
    (gps_side_effect now gps st).2.frame = st.frame := by
  rw [gps_side_effect_state]
  split <;> rfl

theorem gps_produced (now : String) (gps : Rat × Rat) (st : AppState) :
    (gps_side_effect now gps st).2.produced = st.produced := by
  rw [gps_side_effect_state]
  split <;> rfl

theorem process_detection_frame (env : Env) (d : Detection)
    (st : AppState) :
    (process_detection env d st).frame = st.frame := by
  rw [process_detection_eq]
  split
  · rfl
  · split
    · rw [gps_frame, add_alert_frame]
    · rfl

theorem process_detection_produced (env : Env) (d : Detection)
    (st : AppState) :
    (process_detection env d st).produced = st.produced := by
  rw [process_detection_eq]
  split
  · rfl
  · split
    · rw [gps_produced, add_alert_produced]
    · rfl

theorem phase_frame (env : Env) (f : Frame) (st : AppState) :
    (frame_alert_phase env f st).frame = st.frame := by
  unfold frame_alert_phase
  dsimp only
  have h1 := foldl_preserves AppState.frame _
    (fun st d => process_detection_frame env d st) (env.detect f) st
  split
  · rw [gps_frame, add_alert_frame, h1]
  · exact h1

theorem phase_produced (env : Env) (f : Frame) (st : AppState) :
    (frame_alert_phase env f st).produced = st.produced := by
  unfold frame_alert_phase
  dsimp only
  have h1 := foldl_preserves AppState.produced _
    (fun st d => process_detection_produced env d st) (env.detect f) st
  split
  · rw [gps_produced, add_alert_produced, h1]
  · exact h1

theorem buffer_inv_process_frame (env : Env) (f : Frame) (st : AppState) :
    buffer_inv (process_frame env f st) := by
  unfold buffer_inv
  rw [process_frame_frame, process_frame_produced, phase_produced,
    List.getLast?_concat]

theorem buffer_inv_camera_loop (env : Env) :
    ∀ (frames : List Frame) {st : AppState}, buffer_inv st →
      buffer_inv (camera_loop env frames st)
  | [], st, h => by
    unfold camera_loop
    split
    · exact buffer_inv_of_eq rfl rfl h
    · exact h
  | f :: rest, st, h => by
    unfold camera_loop
    split
    · exact buffer_inv_camera_loop env rest
        (buffer_inv_process_frame env f _)
    · exact h

@[simp] theorem save_frame (st : AppState) :
    (save_alerts_csv st).frame = st.frame := by
  unfold save_alerts_csv
  split <;> rfl

@[simp] theorem save_produced (st : AppState) :
    (save_alerts_csv st).produced = st.produced := by
  unfold save_alerts_csv
  split <;> rfl

theorem buffer_inv_camera_detection (env : Env) {st : AppState}
    (h : buffer_inv st) : buffer_inv (camera_detection env st) := by
  unfold camera_detection
  dsimp only
  split
  · exact buffer_inv_of_eq rfl rfl h
  · refine buffer_inv_of_eq (save_frame _) (save_produced _) ?_
    refine buffer_inv_of_eq rfl rfl ?_
    exact buffer_inv_camera_loop env env.frames
      (buffer_inv_of_eq rfl rfl h)

theorem buffer_inv_runOp (op : Op) {st : AppState} (h : buffer_inv st) :
    buffer_inv (runOp op st) := by
  cases op with
  | add now msg ty =>
    exact buffer_inv_of_eq rfl rfl h
  | start env =>
    rw [runOp_start]
    split
    · exact h
    · exact buffer_inv_camera_detection env (buffer_inv_of_eq rfl rfl h)
  | stop =>
    rw [runOp_stop]
    exact buffer_inv_of_eq rfl rfl h

theorem buffer_inv_runOps :
    ∀ (ops : List Op) {st : AppState}, buffer_inv st →
      buffer_inv (runOps ops st)
  | [], _, h => h
  | op :: ops, _, h => buffer_inv_runOps ops (buffer_inv_runOp op h)

/-! ## Further projection lemmas used by the claims -/

theorem gps_saved (now : String) (gps : Rat × Rat) (st : AppState) :
    (gps_side_effect now gps st).2.saved_csvs = st.saved_csvs := by
  rw [gps_side_effect_state]
  split <;> rfl

theorem gps_camera (now : String) (gps : Rat × Rat) (st : AppState) :
    (gps_side_effect now gps st).2.camera_running = st.camera_running := by
  rw [gps_side_effect_state]
  split <;> rfl

theorem process_detection_saved (env : Env) (d : Detection)
    (st : AppState) :
    (process_detection env d st).saved_csvs = st.saved_csvs := by
  rw [process_detection_eq]
  split
  · rfl
  · split
    · rw [gps_saved, add_alert_saved]
    · rfl

theorem process_detection_camera (env : Env) (d : Detection)
    (st : AppState) :
    (process_detection env d st).camera_running = st.camera_running := by
  rw [process_detection_eq]
  split
  · rfl
  · split
    · rw [gps_camera, add_alert_camera_running]
    · rfl

theorem phase_saved (env : Env) (f : Frame) (st : AppState) :
    (frame_alert_phase env f st).saved_csvs = st.saved_csvs := by
  unfold frame_alert_phase
  dsimp only
  have h1 := foldl_preserves AppState.saved_csvs _
    (fun st d => process_detection_saved env d st) (env.detect f) st
  split
  · rw [gps_saved, add_alert_saved, h1]
  · exact h1

theorem phase_camera (env : Env) (f : Frame) (st : AppState) :
    (frame_alert_phase env f st).camera_running = st.camera_running := by
  unfold frame_alert_phase
  dsimp only
  have h1 := foldl_preserves AppState.camera_running _
    (fun st d => process_detection_camera env d st) (env.detect f) st
  split
  · rw [gps_camera, add_alert_camera_running, h1]
  · exact h1

theorem process_frame_saved (env : Env) (f : Frame) (st : AppState) :
    (process_frame env f st).saved_csvs = st.saved_csvs := by
  have h : (process_frame env f st).saved_csvs =
      (frame_alert_phase env f st).saved_csvs := by
    unfold process_frame frame_alert_phase
    dsimp only
    split <;> split <;> rfl
  rw [h, phase_saved]

theorem process_frame_running (env : Env) (f : Frame) (st : AppState) :
    (process_frame env f st).camera_running = st.camera_running := by
  rw [process_frame_camera_flag, phase_camera]

theorem camera_loop_saved (env : Env) :
    ∀ (frames : List Frame) (st : AppState),
      (camera_loop env frames st).saved_csvs = st.saved_csvs
  | [], st => by
    unfold camera_loop
    split <;> rfl
  | f :: rest, st => by
    unfold camera_loop
    split
    · rw [camera_loop_saved env rest, process_frame_saved]
    · rfl

/-! ## Counting the fire/weapon events of a ledger -/

/-- Whether an event carries the `fire` or `weapon` category. -/
def isFireWeapon (e : AlertEvent) : Bool :=
  e.type == "fire" || e.type == "weapon"

/-- Number of `fire`/`weapon` events in a ledger. -/
def countFW (l : List AlertEvent) : Nat :=
  (l.filter isFireWeapon).length

theorem countFW_append (l : List AlertEvent) (e : AlertEvent) :
    countFW (l ++ [e]) =
      countFW l + (if isFireWeapon e then 1 else 0) := by
  unfold countFW
  rw [List.filter_append, List.length_append]
  by_cases h : isFireWeapon e
  · simp [List.filter, h]
  · simp [List.filter, h]

theorem countFW_gps (now : String) (gps : Rat × Rat) (st : AppState) :
    countFW (gps_side_effect now gps st).2.alerts_log =
      countFW st.alerts_log := by
  rw [gps_side_effect_state]
  split
  · rw [add_alert_log, countFW_append]
    have h : isFireWeapon
        ⟨st.next_alert_id, now,
          s!"GPS Location: {gps.1}, {gps.2}", "info"⟩ = false := rfl
    rw [h]
    simp
  · rfl

/-! ## Claim theorems -/

/-- C1: over every sequence of externally triggerable operations from
process start — including repeated start/stop session cycles — the IDs of
the recorded alert events are exactly `1, 2, ..., n` in log order:
strictly increasing, without duplicates and without gaps, starting from 1;
and the ledger snapshot returns the events in insertion order. -/
theorem alert_ids_sequential (ops : List Op) :
    ((runOps ops init_state).alerts_log.map AlertEvent.id =
      List.range' 1 (runOps ops init_state).alerts_log.length) ∧
    List.Pairwise (· < ·)
      ((runOps ops init_state).alerts_log.map AlertEvent.id) ∧
    ((runOps ops init_state).alerts_log.map AlertEvent.id).Nodup ∧
    get_alerts (runOps ops init_state) =
      (runOps ops init_state).alerts_log := by
  obtain ⟨h1, h2⟩ := ledger_inv_runOps ops ledger_inv_init
  refine ⟨h1, ?_, ?_, rfl⟩
  · rw [h1]
    exact List.pairwise_lt_range' _ _
  · rw [h1]
    exact List.nodup_range' _ _

/-- C4: `start` while the loop is running answers the "already running"
signal, spawns no task and leaves the state — sessions included —
unchanged; `stop` while idle answers the "not running" signal and leaves
the state unchanged. -/
theorem start_stop_guards :
    (∀ st : AppState, st.camera_running = true →
      start_camera st = ("Camera already running", false, st)) ∧
    (∀ (env : Env) (st : AppState), st.camera_running = true →
      runOp (.start env) st = st) ∧
    (∀ st : AppState, st.camera_running = false →
      stop_camera st = ("Camera not running", st)) ∧
    (∀ st : AppState, st.camera_running = false → runOp .stop st = st) := by
  refine ⟨?_, ?_, ?_, ?_⟩
  · intro st h
    unfold start_camera
    rw [h]
    rfl
  · intro env st h
    rw [runOp_start, if_pos h]
  · intro st h
    unfold stop_camera
    rw [h]
    rfl
  · intro st h
    rw [runOp_stop]
    cases st
    simp_all

/-- Witness for C4 at concrete states. -/
theorem start_stop_guards_witness :
    start_camera { init_state with camera_running := true } =
      ("Camera already running", false,
        { init_state with camera_running := true }) ∧
    stop_camera init_state = ("Camera not running", init_state) :=
  ⟨start_stop_guards.1 { init_state with camera_running := true } rfl,
   start_stop_guards.2.2.1 init_state rfl⟩

/-- C7: when the capture device cannot be opened, the loop records exactly
one `info` alert and returns with the running flag cleared, leaving the
session folder, session list, video writer and every other field
untouched. -/
theorem camera_open_failure_idle (env : Env) (st : AppState)
    (h : env.capOpened = false) :
    camera_detection env st =
      { st with
        alerts_log := st.alerts_log ++
          [⟨st.next_alert_id, env.now, "Camera failed to open", "info"⟩]
        next_alert_id := st.next_alert_id + 1
        camera_running := false } := by
  unfold camera_detection
  rw [h]
  rfl

/-- An environment whose capture device fails to open. -/
def closedCamEnv : Env :=
  { capOpened := false
    frames := []
    names := fun _ => none
    detect := fun _ => []
    plotted := fun _ => none
    smallFire := fun _ => false
    geo := .raises
    now := "t0" }

/-- Witness for C7 at a concrete environment and the initial state. -/
theorem camera_open_failure_idle_witness :
    camera_detection closedCamEnv init_state =
      { init_state with
        alerts_log := [⟨1, "t0", "Camera failed to open", "info"⟩]
        next_alert_id := 2
        camera_running := false } :=
  camera_open_failure_idle closedCamEnv init_state rfl

/-- C8: at every reachable state the preview buffer holds either no frame
or the most recently published annotated frame, and after each processed
frame the buffer holds exactly that frame's annotated output — never a
stale frame from before. -/
theorem preview_buffer_freshness :
    (∀ ops : List Op,
      (runOps ops init_state).frame =
        (runOps ops init_state).produced.getLast?) ∧
    (∀ (env : Env) (f : Frame) (st : AppState),
      (process_frame env f st).frame = some ((env.plotted f).getD f) ∧
      (process_frame env f st).produced =
        st.produced ++ [(env.plotted f).getD f]) := by
  constructor
  · intro ops
    exact buffer_inv_runOps ops buffer_inv_init
  · intro env f st
    refine ⟨process_frame_frame env f st, ?_⟩
    rw [process_frame_produced, phase_produced]

/-- C10: the geolocation lookup returns the sentinel `(0, 0)` whenever the
geocoder raises or reports failure; the loop records a GPS `info` alert
and draws the coordinate annotation if and only if the returned coordinate
differs from the sentinel; a genuine coordinate of exactly `(0, 0)` is
therefore indistinguishable from failure and produces neither. -/
theorem gps_sentinel_contract :
    (get_gps_location .raises = ((0 : Rat), (0 : Rat))) ∧
    (∀ p : Rat × Rat, get_gps_location (.result false p) = (0, 0)) ∧
    (∀ p : Rat × Rat, get_gps_location (.result true p) = p) ∧
    (∀ (now : String) (gps : Rat × Rat) (st : AppState),
      ((gps_side_effect now gps st).1 = true ↔ gps ≠ (0, 0)) ∧
      ((gps_side_effect now gps st).2.alerts_log ≠ st.alerts_log ↔
        gps ≠ (0, 0)) ∧
      (gps ≠ (0, 0) →
        (gps_side_effect now gps st).2.alerts_log =
          st.alerts_log ++ [⟨st.next_alert_id, now,
            s!"GPS Location: {gps.1}, {gps.2}", "info"⟩])) ∧
    (∀ (now : String) (st : AppState),
      gps_side_effect now (get_gps_location (.result true (0, 0))) st =
        (false, st)) := by
  refine ⟨rfl, fun p => rfl, fun p => rfl, ?_, ?_⟩
  · intro now gps st
    by_cases hg : gps = ((0 : Rat), (0 : Rat))
    · subst hg
      unfold gps_side_effect
      simp
    · unfold gps_side_effect
      rw [if_pos hg]
      refine ⟨⟨fun _ => hg, fun _ => rfl⟩, ?_, fun _ => rfl⟩
      constructor
      · intro _
        exact hg
      · intro _ hEq
        have hl := congrArg List.length hEq
        rw [add_alert_log, List.length_append] at hl
        simp at hl
  · intro now st
    have h0 : get_gps_location (.result true ((0 : Rat), (0 : Rat))) =
        ((0 : Rat), (0 : Rat)) := rfl
    rw [h0]
    unfold gps_side_effect
    simp

/-- Witness for C10's conditional part: a non-sentinel coordinate draws
the annotation. -/
theorem gps_sentinel_contract_witness :
    (gps_side_effect "t" ((1 : Rat), (2 : Rat)) init_state).1 = true :=
  (gps_sentinel_contract.2.2.2.1 "t" ((1 : Rat), (2 : Rat))
    init_state).1.mpr (by decide)
/-- A model-name table reporting every class as `knife`. -/
def knifeEnv : Env :=
  { capOpened := true
    frames := []
    names := fun _ => some "knife"
    detect := fun _ => []
    plotted := fun _ => none
    smallFire := fun _ => false
    geo := .raises
    now := "t" }

/-- C2: one detection adds a fire/weapon event to the ledger if and only
if its confidence is at least `CONF_THRESH = 0.35` and its lowercased
label is in `ALERT_CLASSES`; a label outside the set leaves the ledger
completely unchanged regardless of confidence; the boundary is inclusive
(`0.35` matches, `0.349999` does not). -/
theorem restricted_class_alert_iff :
    (∀ (env : Env) (d : Detection) (st : AppState),
      countFW (process_detection env d st).alerts_log =
        countFW st.alerts_log +
          (if CONF_THRESH ≤ d.conf ∧
              detection_label env.names d ∈ ALERT_CLASSES
           then 1 else 0)) ∧
    (∀ (env : Env) (d : Detection) (st : AppState),
      detection_label env.names d ∉ ALERT_CLASSES →
      (process_detection env d st).alerts_log = st.alerts_log) ∧
    (∀ st : AppState,
      countFW (process_detection knifeEnv ⟨0, 35/100⟩ st).alerts_log =
        countFW st.alerts_log + 1) ∧
    (∀ st : AppState,
      (process_detection knifeEnv ⟨0, 349999/1000000⟩ st).alerts_log =
        st.alerts_log) := by
  have key : ∀ (env : Env) (d : Detection) (st : AppState),
      countFW (process_detection env d st).alerts_log =
        countFW st.alerts_log +
          (if CONF_THRESH ≤ d.conf ∧
              detection_label env.names d ∈ ALERT_CLASSES
           then 1 else 0) := by
    intro env d st
    rw [process_detection_eq]
    by_cases hconf : d.conf < CONF_THRESH
    · rw [if_pos hconf,
        if_neg (fun hand => absurd hand.1 (not_le.mpr hconf))]
      simp
    · by_cases hmem : detection_label env.names d ∈ ALERT_CLASSES
      · rw [if_neg hconf, if_pos hmem,
          if_pos (And.intro (not_lt.mp hconf) hmem),
          countFW_gps, add_alert_log, countFW_append]
        by_cases hk : (strContains (detection_label env.names d) "fire" ||
            strContains (detection_label env.names d) "flame") = true
        · rw [if_pos hk]
          have hfw : isFireWeapon
              ⟨st.next_alert_id, env.now,
                s!"{detection_label env.names d} detected (conf {d.conf})",
                "fire"⟩ = true := rfl
          rw [hfw]
          simp
        · rw [if_neg hk]
          have hfw : isFireWeapon
              ⟨st.next_alert_id, env.now,
                s!"{detection_label env.names d} detected (conf {d.conf})",
                "weapon"⟩ = true := rfl
          rw [hfw]
          simp
      · rw [if_neg hconf, if_neg hmem,
          if_neg (fun hand => hmem hand.2)]
        simp
  refine ⟨key, ?_, ?_, ?_⟩
  · intro env d st hmem
    rw [process_detection_eq]
    by_cases hconf : d.conf < CONF_THRESH
    · rw [if_pos hconf]
    · rw [if_neg hconf, if_neg hmem]
  · intro st
    have hc : CONF_THRESH ≤ (35/100 : Rat) := by norm_num [CONF_THRESH]
    have hm : detection_label knifeEnv.names ⟨0, 35/100⟩ ∈ ALERT_CLASSES := by
      decide
    have h := key knifeEnv ⟨0, 35/100⟩ st
    rw [if_pos (And.intro hc hm)] at h
    exact h
  · intro st
    rw [process_detection_eq,
      if_pos (show (349999/1000000 : Rat) < CONF_THRESH by
        norm_num [CONF_THRESH])]

/-- Witness for C2: a `person` label above threshold records nothing. -/
theorem restricted_class_alert_iff_witness :
    (process_detection
      { knifeEnv with names := fun _ => some "person" }
      ⟨0, 1⟩ init_state).alerts_log = init_state.alerts_log :=
  restricted_class_alert_iff.2.1
    { knifeEnv with names := fun _ => some "person" }
    ⟨0, 1⟩ init_state (by decide)

/-- C3: when a detection produces an alert event, that event's category is
`fire` exactly when the (lowercased) label contains the substring
`"fire"` or `"flame"`, and `weapon` for every other restricted label; in
particular a `smoke` label yields a `weapon` event. -/
theorem alert_category_fire_iff (env : Env) (d : Detection)
    (st : AppState)
    (h1 : CONF_THRESH ≤ d.conf)
    (h2 : detection_label env.names d ∈ ALERT_CLASSES) :
    ∃ e tail,
      (process_detection env d st).alerts_log =
        st.alerts_log ++ e :: tail ∧
      (e.type = "fire" ∨ e.type = "weapon") ∧
      (e.type = "fire" ↔
        (strContains (detection_label env.names d) "fire" = true ∨
         strContains (detection_label env.names d) "flame" = true)) ∧
      (detection_label env.names d = "smoke" → e.type = "weapon") := by
  rw [process_detection_eq, if_neg (not_le.mpr.mt (fun h => h h1)),
    gps_side_effect_state]
  rw [if_pos h2]
  set name := detection_label env.names d with hname
  set ty := (if (strContains name "fire" || strContains name "flame") = true
    then "fire" else "weapon") with hty
  refine ⟨⟨st.next_alert_id, env.now,
    s!"{name} detected (conf {d.conf})", ty⟩, ?_⟩
  have hprops : (ty = "fire" ∨ ty = "weapon") ∧
      (ty = "fire" ↔
        (strContains name "fire" = true ∨
         strContains name "flame" = true)) ∧
      (name = "smoke" → ty = "weapon") := by
    rw [hty]
    by_cases hk : (strContains name "fire" || strContains name "flame") = true
    · rw [if_pos hk]
      refine ⟨Or.inl rfl, ⟨fun _ => ?_, fun _ => rfl⟩, ?_⟩
      · rcases Bool.or_eq_true _ _ |>.mp hk with h | h
        · exact Or.inl h
        · exact Or.inr h
      · intro hsm
        rw [hsm] at hk
        exact absurd hk (by decide)
    · rw [if_neg hk]
      refine ⟨Or.inr rfl, ⟨fun hcontr => ?_, fun hdisj => ?_⟩,
        fun _ => rfl⟩
      · exact absurd hcontr (by decide)
      · rcases hdisj with h | h <;>
          exact absurd hk (by simp [h])
  split
  · exact ⟨[⟨st.next_alert_id + 1, env.now,
      s!"GPS Location: {(get_gps_location env.geo).1}, {(get_gps_location env.geo).2}",
      "info"⟩],
      by rw [add_alert_log, add_alert_log, add_alert_next_id]; simp, hprops⟩
  · exact ⟨[], by rw [add_alert_log], hprops⟩

/-- A model-name table reporting every class as `Smoke`. -/
def smokeEnv : Env :=
  { capOpened := true
    frames := []
    names := fun _ => some "Smoke"
    detect := fun _ => []
    plotted := fun _ => none
    smallFire := fun _ => false
    geo := .raises
    now := "t" }

/-- Witness for C3 at a concrete detection labelled `Smoke` with
confidence 0.9. -/
theorem alert_category_fire_iff_witness :
    CONF_THRESH ≤ ((9 : Rat)/10) ∧
    detection_label smokeEnv.names ⟨0, 9/10⟩ ∈ ALERT_CLASSES ∧
    (∃ e tail,
      (process_detection smokeEnv ⟨0, 9/10⟩ init_state).alerts_log =
        init_state.alerts_log ++ e :: tail ∧
      (e.type = "fire" ∨ e.type = "weapon") ∧
      (e.type = "fire" ↔
        (strContains (detection_label smokeEnv.names ⟨0, 9/10⟩) "fire" =
          true ∨
         strContains (detection_label smokeEnv.names ⟨0, 9/10⟩) "flame" =
          true)) ∧
      (detection_label smokeEnv.names ⟨0, 9/10⟩ = "smoke" →
        e.type = "weapon")) :=
  ⟨by norm_num [CONF_THRESH], by decide,
   alert_category_fire_iff smokeEnv ⟨0, 9/10⟩ init_state
     (by norm_num [CONF_THRESH]) (by decide)⟩

/-- C6: exporting an empty ledger writes no file and signals nothing to
export (`/download_alerts` answers 404); exporting a non-empty ledger
yields a CSV whose data-row count equals the snapshot length and whose
header row lists the `AlertEvent` fields. -/
theorem export_csv_contract :
    (∀ st : AppState, st.alerts_log = [] →
      save_alerts_csv st = st ∧ download_alerts st = .error 404) ∧
    (∀ st : AppState, st.alerts_log ≠ [] →
      download_alerts st =
        .ok (csvHeader :: (get_alerts st).map csvRow) ∧
      ((get_alerts st).map csvRow).length = (get_alerts st).length ∧
      save_alerts_csv st =
        { st with saved_csvs := st.saved_csvs ++
            [csvHeader :: (get_alerts st).map csvRow] }) ∧
    csvHeader = ["id", "time", "msg", "type"] := by
  refine ⟨?_, ?_, rfl⟩
  · intro st h
    have he : st.alerts_log.isEmpty = true := by
      rw [h]
      rfl
    unfold save_alerts_csv download_alerts
    rw [he]
    exact ⟨rfl, rfl⟩
  · intro st h
    have he : st.alerts_log.isEmpty = false := by
      rwa [List.isEmpty_eq_false]
    unfold save_alerts_csv download_alerts
    rw [he]
    exact ⟨rfl, List.length_map _ _, rfl⟩

/-- Witness for C6 at the empty initial ledger and at a one-event
ledger. -/
theorem export_csv_contract_witness :
    download_alerts init_state = .error 404 ∧
    download_alerts
        { init_state with alerts_log := [⟨1, "t", "m", "info"⟩] } =
      .ok (csvHeader :: [csvRow ⟨1, "t", "m", "info"⟩]) :=
  ⟨(export_csv_contract.1 init_state rfl).2,
   (export_csv_contract.2.1
     { init_state with alerts_log := [⟨1, "t", "m", "info"⟩] }
     (by simp)).1⟩

/-- `camera_detection` when the capture opens: run the loop on a fresh
session state, close the writer, clear the flag, save the CSV. -/
theorem camera_detection_open (env : Env) (st : AppState)
    (hcap : env.capOpened = true) :
    camera_detection env st =
      save_alerts_csv
        { camera_loop env env.frames
            { st with
              session_folder := some ("sessions/" ++ env.now)
              all_sessions := st.all_sessions ++ ["sessions/" ++ env.now]
              video_writer_open := true
              written_frames := [] } with
          video_writer_open := false
          camera_running := false } := by
  unfold camera_detection
  rw [if_neg (show ¬((!env.capOpened) = true) by rw [hcap]; decide)]

/-- `save_alerts_csv` on a non-empty ledger, as an equation. -/
theorem save_alerts_csv_nonempty {st : AppState}
    (h : st.alerts_log ≠ []) :
    save_alerts_csv st =
      { st with saved_csvs := st.saved_csvs ++ [csvRows st.alerts_log] } := by
  unfold save_alerts_csv
  rw [if_neg (by simpa using h)]

/-- C9: no operation ever removes ledger events, and the CSV written at
session end serializes the entire ledger accumulated since process start:
after a run whose capture opened, the written file has one row for every
event in the final ledger, and the rows of every event recorded before the
run — earlier sessions included — form a prefix of those rows. -/
theorem csv_serializes_entire_ledger :
    (∀ (op : Op) (st : AppState),
      st.alerts_log <+: (runOp op st).alerts_log) ∧
    (∀ (env : Env) (st : AppState), env.capOpened = true →
      st.alerts_log ≠ [] →
      (camera_detection env st).saved_csvs =
        st.saved_csvs ++
          [csvHeader ::
            (camera_detection env st).alerts_log.map csvRow] ∧
      st.alerts_log.map csvRow <+:
        (camera_detection env st).alerts_log.map csvRow) := by
  refine ⟨log_prefix_runOp, ?_⟩
  intro env st hcap hne
  have hpre : st.alerts_log <+: (camera_detection env st).alerts_log :=
    log_prefix_camera_detection env st
  refine ⟨?_, hpre.map csvRow⟩
  have hne2 : (camera_detection env st).alerts_log ≠ [] := by
    intro h0
    rw [h0] at hpre
    exact hne (List.prefix_nil.mp hpre)
  rw [camera_detection_open env st hcap] at hne2 ⊢
  rw [save_alerts_log] at hne2
  rw [save_alerts_csv_nonempty hne2]
  dsimp only [csvRows]
  rw [camera_loop_saved]

/-- The environment of an immediately stopping run whose capture device
opens. -/
def openEmptyEnv : Env :=
  { capOpened := true
    frames := []
    names := fun _ => none
    detect := fun _ => []
    plotted := fun _ => none
    smallFire := fun _ => false
    geo := .raises
    now := "t2" }

/-- Witness for C9: a run started after one alert was already recorded
exports a CSV containing that earlier event's row. -/
theorem csv_serializes_entire_ledger_witness :
    (camera_detection openEmptyEnv
        { init_state with
          alerts_log := [⟨1, "t1", "old", "info"⟩]
          next_alert_id := 2 }).saved_csvs =
      [] ++
        [csvHeader ::
          (camera_detection openEmptyEnv
            { init_state with
              alerts_log := [⟨1, "t1", "old", "info"⟩]
              next_alert_id := 2 }).alerts_log.map csvRow] :=
  (csv_serializes_entire_ledger.2 openEmptyEnv
    { init_state with
      alerts_log := [⟨1, "t1", "old", "info"⟩]
      next_alert_id := 2 } rfl (by simp)).1

/-- C5: starting from an empty ledger, when the capture opens, the source
yields exactly three frames and then fails, and neither detector flags
anything, the run writes exactly 3 frames to the session sink, the ledger
ends with exactly one `info` event ("Frame read failed", recorded after
the third frame), the run exports a CSV with that single data row, and the
loop returns to idle. -/
theorem three_frames_then_eof (env : Env) (a b c : Frame)
    (hcap : env.capOpened = true)
    (hframes : env.frames = [a, b, c])
    (hdet : ∀ f, env.detect f = [])
    (hfire : ∀ f, env.smallFire f = false) :
    (runOp (.start env) init_state).written_frames.length = 3 ∧
    (runOp (.start env) init_state).alerts_log =
      [⟨1, env.now, "Frame read failed", "info"⟩] ∧
    (runOp (.start env) init_state).saved_csvs =
      [[csvHeader, csvRow ⟨1, env.now, "Frame read failed", "info"⟩]] ∧
    (runOp (.start env) init_state).camera_running = false := by
  have h0 : runOp (.start env) init_state =
      camera_detection env { init_state with camera_running := true } := by
    rw [runOp_start, if_neg (by decide)]
  rw [h0, camera_detection_open env _ hcap, hframes]
  simp [camera_loop, process_frame, hdet, hfire, save_alerts_csv,
    add_alert, init_state, csvRows, csvHeader]

/-- An environment yielding three frames and detecting nothing. -/
def quietEnv : Env :=
  { capOpened := true
    frames := [10, 11, 12]
    names := fun _ => none
    detect := fun _ => []
    plotted := fun _ => none
    smallFire := fun _ => false
    geo := .raises
    now := "t3" }

/-- Witness for C5 at a concrete three-frame environment. -/
theorem three_frames_then_eof_witness :
    (runOp (.start quietEnv) init_state).written_frames.length = 3 ∧
    (runOp (.start quietEnv) init_state).alerts_log =
      [⟨1, quietEnv.now, "Frame read failed", "info"⟩] ∧
    (runOp (.start quietEnv) init_state).saved_csvs =
      [[csvHeader,
        csvRow ⟨1, quietEnv.now, "Frame read failed", "info"⟩]] ∧
    (runOp (.start quietEnv) init_state).camera_running = false :=
  three_frames_then_eof quietEnv 10 11 12 rfl rfl
    (fun _ => rfl) (fun _ => rfl)
